import Mathlib

/-!
Verification of the aggregation pipeline of `src/dashboard.py`
(Manchester United analytics dashboard).

The source is a single pandas/streamlit script.  We embed the pipeline
shallowly:

* a pandas row becomes a `Row` structure with the six canonical columns;
* `mu_result` and `goal_diff` (per-row closures in `main`) become pure
  functions on `Row`;
* a pandas `groupby` over a string key becomes: the list of distinct key
  values (`groupKeys`, pandas groups every distinct key exactly once)
  paired with the aggregate computed over the rows carrying that key;
* floating point means are modelled exactly over `ℚ` (the example values
  in play, 50.0 and 1.0, are exactly representable, and `float64`
  introduces no further behaviour the claims depend on);
* `sort_values` / `sort_index` only permute the (key, value) pairs of a
  mapping, so aggregate mappings are kept in group order; ordering claims
  are treated separately;
* the `main` control flow around the aggregates (missing-column check,
  MU filter, sidebar selection filter, empty-result early return) becomes
  `main_pipeline`, returning `Except` for the fatal missing-column stop
  and `Option` for the empty-selection early return.
-/

namespace Dashboard

/-- The tracked team name, hard-coded as `"Man United"` in `dashboard.py`. -/
def muTeam : String := "Man United"

/-- One row of the match table, with the canonical column names required at
`dashboard.py` line 48. -/
structure Row where
  home_team : String
  away_team : String
  home_goals : Nat
  away_goals : Nat
  season : String
  referee : String
deriving DecidableEq, Repr

/-- `dashboard.py` lines 57-62: the per-row predicate `is_mu_match`. -/
def is_mu_match (r : Row) : Prop :=
  r.home_team = muTeam ∨ r.away_team = muTeam

instance (r : Row) : Decidable (is_mu_match r) := by
  unfold is_mu_match; infer_instance

/-- `dashboard.py` lines 69-83: the `mu_result` closure.  If the home team
is `"Man United"` it compares home goals against away goals; *otherwise*
(with no check that the away team is the tracked team) it compares away
goals against home goals. -/
def mu_result (r : Row) : String :=
  if r.home_team = muTeam then
    if r.home_goals > r.away_goals then "W"
    else if r.home_goals < r.away_goals then "L"
    else "D"
  else
    if r.away_goals > r.home_goals then "W"
    else if r.away_goals < r.home_goals then "L"
    else "D"

/-- `dashboard.py` lines 128-133: the `goal_diff` closure,
`home_goals - away_goals` when the home team is `"Man United"`,
`away_goals - home_goals` otherwise. -/
def goal_diff (r : Row) : Int :=
  if r.home_team = muTeam then (r.home_goals : Int) - (r.away_goals : Int)
  else (r.away_goals : Int) - (r.home_goals : Int)

/-- The distinct values of a key column, each exactly once: the group keys
of a pandas `groupby` over that column (pandas additionally sorts the keys,
which only permutes the resulting mapping). -/
def groupKeys (f : Row → String) (rows : List Row) : List String :=
  (rows.map f).dedup

/-- The rows of one `groupby` group: the rows whose key column holds `k`. -/
def group (f : Row → String) (k : String) (rows : List Row) : List Row :=
  rows.filter (fun r => f r = k)

/-- `(x == "W").mean() * 100` over a group `g` of rows
(`dashboard.py` lines 121-125, 140-144, 147-151), exactly over `ℚ`. -/
def win_rate (g : List Row) : ℚ :=
  ((g.filter (fun r => mu_result r = "W")).length : ℚ) / (g.length : ℚ) * 100

/-- `dashboard.py` lines 121-125: win rate per referee
(`filtered.groupby("Referee")["mu_result"].apply(lambda x: (x == "W").mean() * 100)`);
the trailing `sort_values(ascending=False)` permutes the pairs only. -/
def win_rate_ref (rows : List Row) : List (String × ℚ) :=
  (groupKeys (fun r => r.referee) rows).map
    (fun k => (k, win_rate (group (fun r => r.referee) k rows)))

/-- `dashboard.py` lines 135-137: mean `goal_diff` per referee
(`filtered.groupby("Referee")["goal_diff"].mean()`); the trailing
`sort_values(ascending=False)` permutes the pairs only. -/
def gd_ref (rows : List Row) : List (String × ℚ) :=
  (groupKeys (fun r => r.referee) rows).map
    (fun k =>
      let g := group (fun r => r.referee) k rows
      (k, ((g.map (fun r => (goal_diff r : ℚ))).sum) / (g.length : ℚ)))

/-- `dashboard.py` lines 140-144: win rate per season
(`filtered.groupby("Season")["mu_result"].apply(lambda x: (x == "W").mean() * 100)`);
the trailing `sort_index()` permutes the pairs only. -/
def win_rate_season (rows : List Row) : List (String × ℚ) :=
  (groupKeys (fun r => r.season) rows).map
    (fun k => (k, win_rate (group (fun r => r.season) k rows)))

/-- The rows refereed by `r` in season `s`: one group of the two-key
`groupby(["Referee", "Season"])` at `dashboard.py` line 148. -/
def pairGroup (r s : String) (rows : List Row) : List Row :=
  rows.filter (fun row => row.referee = r ∧ row.season = s)

/-- `dashboard.py` lines 147-151: the referee × season win-rate matrix.
`groupby(["Referee", "Season"])` aggregates the non-empty pairs, and
`.unstack(fill_value=0)` lays the result out densely over every referee
present × every season present, writing `0` where a pair has no matches. -/
def heatmap_data (rows : List Row) : List (String × String × ℚ) :=
  (groupKeys (fun r => r.referee) rows).flatMap
    (fun r => (groupKeys (fun row => row.season) rows).map
      (fun s =>
        (r, s, if pairGroup r s rows = [] then 0 else win_rate (pairGroup r s rows))))

/-- `dashboard.py` lines 116-118: the per-referee match count
(`filtered["Referee"].map(filtered["Referee"].value_counts())`, constant on
each referee group and surfaced per group via `.first()` at line 196). -/
def match_count (rows : List Row) (k : String) : Nat :=
  (group (fun r => r.referee) k rows).length

/-- `dashboard.py` line 48: `required_cols`. -/
def required_cols : List String :=
  ["home_team", "away_team", "home_goals", "away_goals", "Season", "Referee"]

/-- `dashboard.py` line 49: `missing = [c for c in required_cols if c not in df.columns]`. -/
def missingCols (cols : List String) : List String :=
  required_cols.filter (fun c => ¬ c ∈ cols)

/-- Everything `main` computes past the guards and hands to the rendering
layer: the filtered derived table and the four aggregate mappings. -/
structure Output where
  filtered : List Row
  winRateRef : List (String × ℚ)
  gdRef : List (String × ℚ)
  winRateSeason : List (String × ℚ)
  heatmap : List (String × String × ℚ)
deriving Repr

/-- `dashboard.py` lines 48-151, the computational skeleton of `main`:
`cols` are the column names of the loaded table, `rows` its rows, and
`selSeasons` / `selReferees` the sidebar multiselect selections.
A non-empty `missing` list stops the run with that list (lines 50-52,
`st.error` + `st.stop`); an empty filtered selection returns early with no
aggregates (lines 109-111); otherwise the four aggregates are computed. -/
def main_pipeline (cols : List String) (rows : List Row)
    (selSeasons selReferees : List String) : Except (List String) (Option Output) :=
  if missingCols cols = [] then
    let mu_matches := rows.filter (fun r => is_mu_match r)
    let filtered := mu_matches.filter
      (fun r => r.season ∈ selSeasons ∧ r.referee ∈ selReferees)
    if filtered = [] then Except.ok none
    else Except.ok (some
      { filtered := filtered
        winRateRef := win_rate_ref filtered
        gdRef := gd_ref filtered
        winRateSeason := win_rate_season filtered
        heatmap := heatmap_data filtered })
  else Except.error (missingCols cols)

/-- The two-match example of spec §8: `(home="TeamX", away=MU, 1-3, season
"2020", referee "A")` then `(home=MU, away="TeamY", 2-2, "2020", "A")`. -/
def exampleRows : List Row :=
  [ { home_team := "TeamX", away_team := "Man United",
      home_goals := 1, away_goals := 3, season := "2020", referee := "A" },
    { home_team := "Man United", away_team := "TeamY",
      home_goals := 2, away_goals := 2, season := "2020", referee := "A" } ]

/-- The goals of the side `mu_result` / `goal_diff` treat as the tracked
team: the home side when the home team is `"Man United"`, the away side
otherwise. -/
def mu_goals (r : Row) : Nat :=
  if r.home_team = muTeam then r.home_goals else r.away_goals

/-- The goals of the side opposite the one treated as the tracked team. -/
def opp_goals (r : Row) : Nat :=
  if r.home_team = muTeam then r.away_goals else r.home_goals

/-! ### Helper lemmas (shared by claim theorems and witnesses) -/

lemma winRateRef_example : win_rate_ref exampleRows = [("A", 50)] := by
  simp [win_rate_ref, exampleRows, groupKeys, group, win_rate, mu_result, muTeam]
  norm_num

lemma gdRef_example : gd_ref exampleRows = [("A", 1)] := by
  simp [gd_ref, exampleRows, groupKeys, group, goal_diff, muTeam]
  norm_num

lemma winRateSeason_example : win_rate_season exampleRows = [("2020", 50)] := by
  simp [win_rate_season, exampleRows, groupKeys, group, win_rate, mu_result, muTeam]
  norm_num

lemma heatmap_example : heatmap_data exampleRows = [("A", "2020", 50)] := by
  simp [heatmap_data, exampleRows, groupKeys, pairGroup, win_rate, mu_result, muTeam]
  norm_num

/-! ### Claim theorems -/

/-- C1: for every match record in which the tracked team (`"Man United"`)
appears as the home or away team, `mu_result` returns `"W"` exactly when
the tracked side's goals are strictly greater than the opponent's, `"L"`
exactly when strictly fewer, and `"D"` exactly when equal. -/
theorem mu_result_correct (r : Row) (h : is_mu_match r) :
    (mu_result r = "W" ↔ opp_goals r < mu_goals r) ∧
    (mu_result r = "L" ↔ mu_goals r < opp_goals r) ∧
    (mu_result r = "D" ↔ mu_goals r = opp_goals r) := by
  unfold mu_result mu_goals opp_goals
  split_ifs <;> simp_all <;> omega

/-- Witness for C1: the first example match (home `"TeamX"` 1, away
`"Man United"` 3) is a tracked-team match and is classified `"W"`
because the tracked side scored strictly more. -/
theorem mu_result_correct_witness :
    is_mu_match { home_team := "TeamX", away_team := "Man United",
                  home_goals := 1, away_goals := 3, season := "2020", referee := "A" } ∧
    ((mu_result { home_team := "TeamX", away_team := "Man United",
                  home_goals := 1, away_goals := 3, season := "2020", referee := "A" } = "W" ↔
        opp_goals { home_team := "TeamX", away_team := "Man United",
                    home_goals := 1, away_goals := 3, season := "2020", referee := "A" } <
        mu_goals { home_team := "TeamX", away_team := "Man United",
                   home_goals := 1, away_goals := 3, season := "2020", referee := "A" }) ∧
     (mu_result { home_team := "TeamX", away_team := "Man United",
                  home_goals := 1, away_goals := 3, season := "2020", referee := "A" } = "L" ↔
        mu_goals { home_team := "TeamX", away_team := "Man United",
                   home_goals := 1, away_goals := 3, season := "2020", referee := "A" } <
        opp_goals { home_team := "TeamX", away_team := "Man United",
                    home_goals := 1, away_goals := 3, season := "2020", referee := "A" }) ∧
     (mu_result { home_team := "TeamX", away_team := "Man United",
                  home_goals := 1, away_goals := 3, season := "2020", referee := "A" } = "D" ↔
        mu_goals { home_team := "TeamX", away_team := "Man United",
                   home_goals := 1, away_goals := 3, season := "2020", referee := "A" } =
        opp_goals { home_team := "TeamX", away_team := "Man United",
                    home_goals := 1, away_goals := 3, season := "2020", referee := "A" })) :=
  ⟨by decide, mu_result_correct _ (by decide)⟩

/-- A record with the tracked team on neither side, used to exercise the
fall-through branch of `mu_result`. -/
def strangerRow : Row :=
  { home_team := "TeamX", away_team := "TeamY",
    home_goals := 1, away_goals := 0, season := "2020", referee := "A" }

/-- Counterexample to C2: on a record with the tracked team on neither side
(home `"TeamX"` 1, away `"TeamY"` 0), `mu_result` does not raise any error
condition — it falls into its `else` branch and returns the ordinary
outcome `"L"`.  There is no error path anywhere in `mu_result`
(`dashboard.py` lines 69-83). -/
theorem mu_result_no_ambiguous_error :
    strangerRow.home_team ≠ muTeam ∧ strangerRow.away_team ≠ muTeam ∧
    mu_result strangerRow = "L" := by decide

/-- C2 as amended: for every record whose home team is not the tracked
team — in particular every record with the tracked team on neither side —
`mu_result` raises no error and returns the outcome computed as if the
tracked team were the away side. -/
theorem mu_result_stranger_as_away (r : Row)
    (h1 : r.home_team ≠ muTeam) (h2 : r.away_team ≠ muTeam) :
    (mu_result r = "W" ↔ r.home_goals < r.away_goals) ∧
    (mu_result r = "L" ↔ r.away_goals < r.home_goals) ∧
    (mu_result r = "D" ↔ r.away_goals = r.home_goals) := by
  unfold mu_result
  split_ifs <;> simp_all <;> omega

/-- Witness for the amended C2, at the record of the counterexample. -/
theorem mu_result_stranger_as_away_witness :
    strangerRow.home_team ≠ muTeam ∧ strangerRow.away_team ≠ muTeam ∧
    ((mu_result strangerRow = "W" ↔ strangerRow.home_goals < strangerRow.away_goals) ∧
     (mu_result strangerRow = "L" ↔ strangerRow.away_goals < strangerRow.home_goals) ∧
     (mu_result strangerRow = "D" ↔ strangerRow.away_goals = strangerRow.home_goals)) :=
  ⟨by decide, by decide, mu_result_stranger_as_away strangerRow (by decide) (by decide)⟩

/-- C3: for every record involving the tracked team, the sign of
`goal_diff` matches `mu_result`: strictly positive implies `"W"`, strictly
negative implies `"L"`, zero implies `"D"`. -/
theorem goal_diff_sign_matches_outcome (r : Row) (h : is_mu_match r) :
    (0 < goal_diff r → mu_result r = "W") ∧
    (goal_diff r < 0 → mu_result r = "L") ∧
    (goal_diff r = 0 → mu_result r = "D") := by
  unfold goal_diff mu_result
  split_ifs <;> simp_all <;> omega

/-- Witness for C3: the second example match (home `"Man United"` 2-2) has
goal differential 0 and outcome `"D"`. -/
theorem goal_diff_sign_matches_outcome_witness :
    is_mu_match { home_team := "Man United", away_team := "TeamY",
                  home_goals := 2, away_goals := 2, season := "2020", referee := "A" } ∧
    ((0 < goal_diff { home_team := "Man United", away_team := "TeamY",
                      home_goals := 2, away_goals := 2, season := "2020", referee := "A" } →
        mu_result { home_team := "Man United", away_team := "TeamY",
                    home_goals := 2, away_goals := 2, season := "2020", referee := "A" } = "W") ∧
     (goal_diff { home_team := "Man United", away_team := "TeamY",
                  home_goals := 2, away_goals := 2, season := "2020", referee := "A" } < 0 →
        mu_result { home_team := "Man United", away_team := "TeamY",
                    home_goals := 2, away_goals := 2, season := "2020", referee := "A" } = "L") ∧
     (goal_diff { home_team := "Man United", away_team := "TeamY",
                  home_goals := 2, away_goals := 2, season := "2020", referee := "A" } = 0 →
        mu_result { home_team := "Man United", away_team := "TeamY",
                    home_goals := 2, away_goals := 2, season := "2020", referee := "A" } = "D")) :=
  ⟨by decide, goal_diff_sign_matches_outcome _ (by decide)⟩

/-- C4: for every non-empty filtered input and every referee group, the
Referee Aggregator maps the referee to the win rate
`100 × (count of "W") / (group size)` and to the mean `goal_diff` of the
group; on the two-match example of spec §8, referee `"A"` gets win rate
`50` and mean goal differential `1`. -/
theorem referee_aggregator_formula (rows : List Row) (hne : rows ≠ [])
    (k : String) (hk : k ∈ groupKeys (fun r => r.referee) rows) :
    (k, 100 * (((group (fun r => r.referee) k rows).filter
          (fun r => mu_result r = "W")).length : ℚ) / (match_count rows k : ℚ))
        ∈ win_rate_ref rows ∧
    (k, ((group (fun r => r.referee) k rows).map
          (fun r => (goal_diff r : ℚ))).sum / (match_count rows k : ℚ))
        ∈ gd_ref rows ∧
    win_rate_ref exampleRows = [("A", 50)] ∧
    gd_ref exampleRows = [("A", 1)] := by
  refine ⟨?_, ?_, winRateRef_example, gdRef_example⟩
  · have hv : 100 * (((group (fun r => r.referee) k rows).filter
          (fun r => mu_result r = "W")).length : ℚ) / (match_count rows k : ℚ)
        = win_rate (group (fun r => r.referee) k rows) := by
      unfold win_rate match_count
      ring
    rw [hv]
    exact List.mem_map.mpr ⟨k, hk, rfl⟩
  · exact List.mem_map.mpr ⟨k, hk, rfl⟩

/-- Witness for C4 at the spec §8 example with referee `"A"`. -/
theorem referee_aggregator_formula_witness :
    exampleRows ≠ [] ∧ "A" ∈ groupKeys (fun r => r.referee) exampleRows ∧
    (("A", 100 * (((group (fun r => r.referee) "A" exampleRows).filter
          (fun r => mu_result r = "W")).length : ℚ) / (match_count exampleRows "A" : ℚ))
        ∈ win_rate_ref exampleRows ∧
     ("A", ((group (fun r => r.referee) "A" exampleRows).map
          (fun r => (goal_diff r : ℚ))).sum / (match_count exampleRows "A" : ℚ))
        ∈ gd_ref exampleRows ∧
     win_rate_ref exampleRows = [("A", 50)] ∧
     gd_ref exampleRows = [("A", 1)]) :=
  ⟨by decide, by decide,
    referee_aggregator_formula exampleRows (by decide) "A" (by decide)⟩

/-- A two-match input whose referee × season combinations are not all
inhabited: referee `"A"` only in season `"2020"`, referee `"B"` only in
season `"2021"`. -/
def sparseRows : List Row :=
  [ { home_team := "TeamX", away_team := "Man United",
      home_goals := 1, away_goals := 3, season := "2020", referee := "A" },
    { home_team := "Man United", away_team := "TeamY",
      home_goals := 2, away_goals := 2, season := "2021", referee := "B" } ]

lemma length_filter_eq_one_of_nodup {α : Type} [DecidableEq α] {l : List α} {x : α}
    (hn : l.Nodup) (hx : x ∈ l) : (l.filter (fun q => q = x)).length = 1 := by
  induction l with
  | nil => cases hx
  | cons a l ih =>
    rw [List.nodup_cons] at hn
    rcases List.mem_cons.mp hx with h | h
    · subst h
      rw [List.filter_cons_of_pos (by simp)]
      have hnil : l.filter (fun q => q = x) = [] := by
        rw [List.filter_eq_nil_iff]
        intro b hb hbx
        exact hn.1 ((of_decide_eq_true hbx) ▸ hb)
      rw [hnil]
      rfl
    · have hax : ¬ a = x := fun hax => hn.1 (hax ▸ h)
      rw [List.filter_cons_of_neg (by simpa using hax)]
      exact ih hn.2 h

/-- C5: the referee × season matrix is dense: every (referee present,
season present) pair keys exactly one entry, the matrix has exactly
`|referees| × |seasons|` entries, and a pair with no matches is filled
with the value `0`. -/
theorem heatmap_dense (rows : List Row) (r s : String)
    (hr : r ∈ groupKeys (fun x => x.referee) rows)
    (hs : s ∈ groupKeys (fun x => x.season) rows) :
    (((heatmap_data rows).map (fun e => (e.1, e.2.1))).filter
        (fun q => q = (r, s))).length = 1 ∧
    (heatmap_data rows).length =
      (groupKeys (fun x => x.referee) rows).length *
        (groupKeys (fun x => x.season) rows).length ∧
    (pairGroup r s rows = [] → (r, s, (0 : ℚ)) ∈ heatmap_data rows) := by
  have hmap : (heatmap_data rows).map (fun e => (e.1, e.2.1)) =
      (groupKeys (fun x => x.referee) rows).product
        (groupKeys (fun x => x.season) rows) := by
    unfold heatmap_data
    rw [List.map_flatMap]
    show (groupKeys (fun x => x.referee) rows).flatMap _ = _
    congr 1
    funext r'
    rw [List.map_map]
    exact List.map_congr_left (fun s' _ => rfl)
  have hnodup : ((groupKeys (fun x => x.referee) rows).product
      (groupKeys (fun x => x.season) rows)).Nodup :=
    (List.nodup_dedup _).product (List.nodup_dedup _)
  refine ⟨?_, ?_, ?_⟩
  · rw [hmap]
    exact length_filter_eq_one_of_nodup hnodup (List.mem_product.mpr ⟨hr, hs⟩)
  · calc (heatmap_data rows).length
        = ((heatmap_data rows).map (fun e => (e.1, e.2.1))).length :=
          (List.length_map ..).symm
      _ = ((groupKeys (fun x => x.referee) rows).product
            (groupKeys (fun x => x.season) rows)).length := congrArg List.length hmap
      _ = (groupKeys (fun x => x.referee) rows).length *
            (groupKeys (fun x => x.season) rows).length := List.length_product ..
  · intro hempty
    unfold heatmap_data
    rw [List.mem_flatMap]
    exact ⟨r, hr, List.mem_map.mpr ⟨s, hs, by rw [if_pos hempty]⟩⟩

/-- Witness for C5 on `sparseRows`, at the uninhabited pair
`("A", "2021")`. -/
theorem heatmap_dense_witness :
    "A" ∈ groupKeys (fun x => x.referee) sparseRows ∧
    "2021" ∈ groupKeys (fun x => x.season) sparseRows ∧
    (((heatmap_data sparseRows).map (fun e => (e.1, e.2.1))).count ("A", "2021") = 1 ∧
     (heatmap_data sparseRows).length =
       (groupKeys (fun x => x.referee) sparseRows).length *
         (groupKeys (fun x => x.season) sparseRows).length ∧
     (pairGroup "A" "2021" sparseRows = [] →
       ("A", "2021", (0 : ℚ)) ∈ heatmap_data sparseRows)) :=
  ⟨by decide, by decide, heatmap_dense sparseRows "A" "2021" (by decide) (by decide)⟩

/-- C6: on the empty filtered input each of the four aggregators yields the
empty mapping (and, being total functions, raises nothing). -/
theorem empty_input_empty_aggregates :
    win_rate_ref [] = [] ∧ gd_ref [] = [] ∧ win_rate_season [] = [] ∧
    heatmap_data [] = [] :=
  ⟨rfl, rfl, rfl, rfl⟩

/-- C7: the per-referee match counts sum to the number of rows of the
filtered input: the referee groups partition it. -/
theorem referee_counts_partition (rows : List Row) :
    ((groupKeys (fun r => r.referee) rows).map (fun k => match_count rows k)).sum
      = rows.length := by
  have hcount : ∀ k, match_count rows k = (rows.map (fun r => r.referee)).count k := by
    intro k
    unfold match_count group
    have hf : (fun r : Row => decide (r.referee = k)) =
        ((· == k) ∘ fun r : Row => r.referee) := by
      funext r
      by_cases h : r.referee = k <;> simp [h]
    rw [hf, ← List.countP_eq_length_filter, ← List.countP_map, ← List.count_eq_countP]
  calc ((groupKeys (fun r => r.referee) rows).map (fun k => match_count rows k)).sum
      = ((rows.map (fun r => r.referee)).dedup.map
          (fun k => (rows.map (fun r => r.referee)).count k)).sum := by
        exact congrArg List.sum (List.map_congr_left (fun k _ => hcount k))
    _ = (rows.map (fun r => r.referee)).length :=
        List.sum_map_count_dedup_eq_length _
    _ = rows.length := List.length_map ..

/-- C8: when some required canonical column is absent, the pipeline stops
with the error carrying exactly the `missing` list, which contains every
absent canonical column; the `Except.error` result carries no derived
table and no aggregate mapping. -/
theorem missing_columns_abort (cols : List String) (rows : List Row)
    (selSeasons selReferees : List String) (h : missingCols cols ≠ []) :
    main_pipeline cols rows selSeasons selReferees
        = Except.error (missingCols cols) ∧
    ∀ c, c ∈ required_cols → c ∉ cols → c ∈ missingCols cols := by
  constructor
  · unfold main_pipeline
    rw [if_neg h]
  · intro c hc hnc
    unfold missingCols
    rw [List.mem_filter]
    exact ⟨hc, by simpa using hnc⟩

/-- Witness for C8: a table exposing only `home_team` aborts with the five
other canonical columns reported missing. -/
theorem missing_columns_abort_witness :
    missingCols ["home_team"] ≠ [] ∧
    (main_pipeline ["home_team"] [] [] [] = Except.error (missingCols ["home_team"]) ∧
     ∀ c, c ∈ required_cols → c ∉ ["home_team"] → c ∈ missingCols ["home_team"]) :=
  ⟨by decide, missing_columns_abort ["home_team"] [] [] [] (by decide)⟩

lemma win_rate_bounds (g : List Row) : 0 ≤ win_rate g ∧ win_rate g ≤ 100 := by
  unfold win_rate
  rcases Nat.eq_zero_or_pos g.length with h0 | hpos
  · have ha : (g.filter (fun r => mu_result r = "W")).length = 0 := by
      have := List.length_filter_le (fun r => decide (mu_result r = "W")) g
      omega
    rw [ha, h0]
    norm_num
  · have hab : ((g.filter (fun r => mu_result r = "W")).length : ℚ) ≤ (g.length : ℚ) := by
      exact_mod_cast List.length_filter_le _ g
    have hbpos : (0 : ℚ) < (g.length : ℚ) := by exact_mod_cast hpos
    constructor
    · positivity
    · have h1 : ((g.filter (fun r => mu_result r = "W")).length : ℚ) / (g.length : ℚ) ≤ 1 :=
        div_le_one_of_le₀ hab hbpos.le
      nlinarith [h1]

/-- C10: every value of the win-rate-per-referee mapping, the win-rate-per-
season mapping, and the referee × season matrix lies in `[0, 100]`. -/
theorem win_rates_bounded (rows : List Row) :
    (∀ p ∈ win_rate_ref rows, 0 ≤ p.2 ∧ p.2 ≤ 100) ∧
    (∀ p ∈ win_rate_season rows, 0 ≤ p.2 ∧ p.2 ≤ 100) ∧
    (∀ e ∈ heatmap_data rows, 0 ≤ e.2.2 ∧ e.2.2 ≤ 100) := by
  refine ⟨?_, ?_, ?_⟩
  · intro p hp
    obtain ⟨k, _, rfl⟩ := List.mem_map.mp hp
    exact win_rate_bounds _
  · intro p hp
    obtain ⟨k, _, rfl⟩ := List.mem_map.mp hp
    exact win_rate_bounds _
  · intro e he
    unfold heatmap_data at he
    rw [List.mem_flatMap] at he
    obtain ⟨r, _, he⟩ := he
    obtain ⟨s, _, rfl⟩ := List.mem_map.mp he
    dsimp only
    split
    · norm_num
    · exact win_rate_bounds _

/-- Witness for C10: the value `50` of referee `"A"` on the spec §8 example
lies in `[0, 100]`. -/
theorem win_rates_bounded_witness :
    ("A", (50 : ℚ)) ∈ win_rate_ref exampleRows ∧
    (0 ≤ (50 : ℚ) ∧ (50 : ℚ) ≤ 100) := by
  have hmem : ("A", (50 : ℚ)) ∈ win_rate_ref exampleRows := by
    rw [winRateRef_example]
    simp
  exact ⟨hmem, (win_rates_bounded exampleRows).1 _ hmem⟩

end Dashboard
